import Mathlib

/-!
Verification of the dsclock configuration-store and hand-rendering model.

This file shallowly embeds the parts of the dsclock sources that the
claims C1..C10 are about:

* `src/property_bag.py` — the `PropertyBag` base class (`set`, `get`,
  `load`, `save`, dirty tracking);
* `src/theme.py` — `Theme.DEFAULTS` and `Theme.load` (its backward
  compatibility migration for the hand image width keys);
* `src/dsclock.py` — the hand drawing pipeline: `draw_hour_hand`,
  `draw_minute_hand`, `draw_second_hand`, `_find_red_pixel` and
  `_draw_hand_image` (pivot detection, colorization cache, scaling,
  angles, the exception fallback).

Python dictionaries are embedded as association lists, Python values as
the inductive `PVal` (with Python's cross-type numeric equality `pyEq`),
JSON documents as `JVal`, and the filesystem as a function from paths to
`FileContent`.  Cairo drawing is embedded as a list of draw commands
carrying the numeric arguments the code computes (angles in degrees as
passed to `math.radians`, scale factors, pivot coordinates); the
trigonometric rasterisation itself is not modelled, the claims are about
the numbers fed into it.
-/

/-- A Python value as stored in a `PropertyBag`: `None`, booleans,
numbers (Python floats/ints, modelled as rationals), strings, tuples and
lists.  Tuples and lists are distinct Python types that compare unequal
to each other. -/
inductive PVal where
  | none
  | bool (b : Bool)
  | num (q : Rat)
  | str (s : String)
  | tuple (xs : List PVal)
  | list (xs : List PVal)

/-- A JSON value as produced by `json.dump` / consumed by `json.load`. -/
inductive JVal where
  | null
  | bool (b : Bool)
  | num (q : Rat)
  | str (s : String)
  | arr (xs : List JVal)

mutual
/-- JSON serialisation of a Python value (`json.dump`): `None` becomes
`null`, tuples and lists both become JSON arrays. -/
def pyToJson : PVal → JVal
  | .none => .null
  | .bool b => .bool b
  | .num q => .num q
  | .str s => .str s
  | .tuple xs => .arr (pyToJsonList xs)
  | .list xs => .arr (pyToJsonList xs)

/-- JSON serialisation of a list of Python values. -/
def pyToJsonList : List PVal → List JVal
  | [] => []
  | x :: xs => pyToJson x :: pyToJsonList xs
end

mutual
/-- Parsing a JSON value into a Python value (`json.load`): `null`
becomes `None` and arrays become Python lists (never tuples). -/
def jsonToPy : JVal → PVal
  | .null => .none
  | .bool b => .bool b
  | .num q => .num q
  | .str s => .str s
  | .arr xs => .list (jsonToPyList xs)

/-- Parsing a list of JSON values. -/
def jsonToPyList : List JVal → List PVal
  | [] => []
  | x :: xs => jsonToPy x :: jsonToPyList xs
end

mutual
/-- Python's `==` on the embedded values: `True == 1`, numbers compare
numerically, tuples and lists compare elementwise but a tuple never
equals a list. -/
def pyEq : PVal → PVal → Bool
  | .none, .none => true
  | .bool a, .bool b => a == b
  | .bool a, .num q => (if a then (1 : Rat) else 0) == q
  | .num q, .bool a => q == (if a then (1 : Rat) else 0)
  | .num p, .num q => p == q
  | .str s, .str t => s == t
  | .tuple xs, .tuple ys => pyEqList xs ys
  | .list xs, .list ys => pyEqList xs ys
  | _, _ => false

/-- Python's `==` on lists of values, elementwise. -/
def pyEqList : List PVal → List PVal → Bool
  | [], [] => true
  | x :: xs, y :: ys => pyEq x y && pyEqList xs ys
  | _, _ => false
end

mutual
/-- A Python value that contains no tuple anywhere (such values survive
a JSON round trip unchanged). -/
def tupleFree : PVal → Bool
  | .none => true
  | .bool _ => true
  | .num _ => true
  | .str _ => true
  | .tuple _ => false
  | .list xs => tupleFreeList xs

/-- `tupleFree` on every element of a list. -/
def tupleFreeList : List PVal → Bool
  | [] => true
  | x :: xs => tupleFree x && tupleFreeList xs
end

/-- An association-list dictionary (Python `dict`): first binding of a
key wins on lookup; insertion order is preserved. -/
abbrev Dict (α : Type) := List (String × α)

/-- Dictionary lookup: the first binding of the key wins
(Python `d.get(k)` returning `None` for a missing key is
`(dlookup d k).getD .none` at `PVal`). -/
def dlookup {α : Type} : Dict α → String → Option α
  | [], _ => none
  | kv :: d, k => if kv.1 = k then some kv.2 else dlookup d k

/-- Python `d[k] = v`: overwrite the binding of `k` if present, append
it otherwise (insertion order semantics of `dict`). -/
def dictSet {α : Type} (d : Dict α) (k : String) (v : α) : Dict α :=
  if (dlookup d k).isSome then
    d.map (fun kv => if kv.1 = k then (k, v) else kv)
  else
    d ++ [(k, v)]

/-- Python `d.update(e)`: set every binding of `e` in `d`, in order. -/
def dictUpdate {α : Type} (d e : Dict α) : Dict α :=
  e.foldl (fun acc kv => dictSet acc kv.1 kv.2) d

theorem dlookup_append_of_none {α : Type} {d : Dict α} {k : String} (e : Dict α)
    (h : dlookup d k = none) : dlookup (d ++ e) k = dlookup e k := by
  induction d with
  | nil => rfl
  | cons kv d ih =>
    simp only [dlookup, List.cons_append] at *
    by_cases hkv : kv.1 = k
    · rw [if_pos hkv] at h; exact absurd h (by simp)
    · rw [if_neg hkv] at h ⊢; exact ih h

theorem dlookup_overwrite_self {α : Type} {d : Dict α} {k : String} (v : α)
    (h : (dlookup d k).isSome) :
    dlookup (d.map (fun kv => if kv.1 = k then (k, v) else kv)) k = some v := by
  induction d with
  | nil => simp [dlookup] at h
  | cons kv d ih =>
    by_cases hkv : kv.1 = k
    · simp [dlookup, hkv]
    · simp only [dlookup, if_neg hkv] at h
      simp only [List.map, if_neg hkv, dlookup, if_neg hkv]
      exact ih h

theorem dlookup_overwrite_ne {α : Type} (d : Dict α) {k k' : String} (v : α)
    (h : k' ≠ k) :
    dlookup (d.map (fun kv => if kv.1 = k then (k, v) else kv)) k' = dlookup d k' := by
  induction d with
  | nil => rfl
  | cons kv d ih =>
    by_cases hkv : kv.1 = k
    · have hne : kv.1 ≠ k' := by rw [hkv]; exact Ne.symm h
      simp only [List.map, if_pos hkv, dlookup, if_neg (Ne.symm h), if_neg hne]
      exact ih
    · simp only [List.map, if_neg hkv, dlookup]
      by_cases hkv2 : kv.1 = k'
      · rw [if_pos hkv2, if_pos hkv2]
      · rw [if_neg hkv2, if_neg hkv2]; exact ih

theorem dlookup_dictSet_self {α : Type} (d : Dict α) (k : String) (v : α) :
    dlookup (dictSet d k v) k = some v := by
  unfold dictSet
  by_cases h : (dlookup d k).isSome
  · rw [if_pos h]; exact dlookup_overwrite_self v h
  · rw [if_neg h]
    rw [dlookup_append_of_none _ (Option.not_isSome_iff_eq_none.mp h)]
    simp [dlookup]

theorem dlookup_dictSet_ne {α : Type} (d : Dict α) {k k' : String} (v : α)
    (h : k' ≠ k) : dlookup (dictSet d k v) k' = dlookup d k' := by
  unfold dictSet
  by_cases hs : (dlookup d k).isSome
  · rw [if_pos hs]; exact dlookup_overwrite_ne d v h
  · rw [if_neg hs]
    by_cases h2 : (dlookup d k').isSome
    · obtain ⟨w, hw⟩ := Option.isSome_iff_exists.mp h2
      rw [hw]
      clear hs h2
      induction d with
      | nil => simp [dlookup] at hw
      | cons kv d ih =>
        simp only [dlookup, List.cons_append] at *
        by_cases hkv : kv.1 = k'
        · rw [if_pos hkv] at hw ⊢; exact hw
        · rw [if_neg hkv] at hw ⊢; exact ih hw
    · rw [Option.not_isSome_iff_eq_none] at h2
      rw [dlookup_append_of_none _ h2, h2]
      simp [dlookup, Ne.symm h]

theorem dlookup_none_of_not_mem {α : Type} {e : Dict α} {k : String}
    (h : k ∉ e.map Prod.fst) : dlookup e k = none := by
  induction e with
  | nil => rfl
  | cons kv e ih =>
    simp only [List.map, List.mem_cons, not_or] at h
    show (if kv.1 = k then some kv.2 else dlookup e k) = none
    rw [if_neg (Ne.symm h.1)]
    exact ih h.2

theorem mem_of_dlookup_some {α : Type} {e : Dict α} {k : String} {v : α}
    (h : dlookup e k = some v) : k ∈ e.map Prod.fst := by
  induction e with
  | nil => exact absurd h (by simp [dlookup])
  | cons kv e ih =>
    simp only [dlookup] at h
    by_cases hkv : kv.1 = k
    · simp [List.map, hkv]
    · rw [if_neg hkv] at h
      simp only [List.map, List.mem_cons]
      exact Or.inr (ih h)

theorem dlookup_dictUpdate_of_none {α : Type} (d : Dict α) {e : Dict α}
    {k : String} (h : dlookup e k = none) :
    dlookup (dictUpdate d e) k = dlookup d k := by
  induction e generalizing d with
  | nil => rfl
  | cons kv e ih =>
    simp only [dlookup] at h
    by_cases hkv : kv.1 = k
    · rw [if_pos hkv] at h; exact absurd h (by simp)
    · rw [if_neg hkv] at h
      show dlookup (dictUpdate (dictSet d kv.1 kv.2) e) k = dlookup d k
      rw [ih _ h, dlookup_dictSet_ne _ _ (fun hh => hkv hh.symm)]

theorem dlookup_dictUpdate_of_some {α : Type} (d : Dict α) {e : Dict α}
    {k : String} {v : α} (hnd : (e.map Prod.fst).Nodup)
    (h : dlookup e k = some v) :
    dlookup (dictUpdate d e) k = some v := by
  induction e generalizing d with
  | nil => exact absurd h (by simp [dlookup])
  | cons kv e ih =>
    simp only [List.map, List.nodup_cons] at hnd
    simp only [dlookup] at h
    by_cases hkv : kv.1 = k
    · rw [if_pos hkv] at h
      cases h
      show dlookup (dictUpdate (dictSet d kv.1 kv.2) e) k = some kv.2
      have he : dlookup e k = none := by
        apply dlookup_none_of_not_mem
        rw [← hkv]; exact hnd.1
      rw [dlookup_dictUpdate_of_none _ he, ← hkv, dlookup_dictSet_self]
    · rw [if_neg hkv] at h
      exact ih _ hnd.2 h

theorem dlookup_mapVal {α β : Type} (f : α → β) (e : Dict α) (k : String) :
    dlookup (e.map (fun kv => (kv.1, f kv.2))) k = (dlookup e k).map f := by
  induction e with
  | nil => rfl
  | cons kv e ih =>
    by_cases hkv : kv.1 = k
    · simp [List.map, dlookup, hkv]
    · simp only [List.map, dlookup, if_neg hkv]
      exact ih

/-! ## The filesystem model

`src/property_bag.py` persists to a JSON file.  A path on disk either
does not exist (`os.path.exists` is false), holds text that
`json.load` rejects with `JSONDecodeError` — an empty file, as produced
by `open(path, 'w')` before anything is written, is such text — or
holds a parsed JSON object (the only shape the code ever writes). -/

/-- What a path on disk holds. -/
inductive FileContent where
  | absent
  | corrupt
  | obj (o : Dict JVal)

/-- The filesystem: contents by path. -/
abbrev FS := String → FileContent

/-- True exactly when `json.load` on this path would succeed
(the previous on-disk version is "readable" in the sense of claim C4). -/
def readableAsJson : FileContent → Bool
  | .obj _ => true
  | _ => false

/-- Update the filesystem at one path. -/
def fsWrite (fs : FS) (p : String) (c : FileContent) : FS :=
  fun q => if q = p then c else fs q

/-- Embedding of `os.path.dirname`: everything before the last slash
(empty when the path has no directory part). -/
def dirname (p : String) : String :=
  let parts := p.splitOn "/"
  if parts.length ≤ 1 then "" else String.intercalate "/" parts.dropLast

/-! ## PropertyBag (`src/property_bag.py`) -/

/-- The state of a `PropertyBag`: its `file_path`, its `_properties`
dictionary and its `_dirty` flag.  The declared defaults (`DEFAULTS`,
a per-subclass constant) are passed to each operation. -/
structure Bag where
  file_path : Option String
  props : Dict PVal
  dirty : Bool

/-- `PropertyBag.__init__` (property_bag.py lines 19-28): `file_path`
as given, `_properties = DEFAULTS.copy()`, `_dirty = False`. -/
def Bag.init (file_path : Option String) (DEFAULTS : Dict PVal) : Bag :=
  ⟨file_path, DEFAULTS, false⟩

/-- `PropertyBag.set` (property_bag.py lines 30-45): asserts
`key in DEFAULTS` (`none` models the raised `AssertionError`); then, if
`self._properties.get(key) != value` under Python equality, stores the
value and sets `_dirty = True`; otherwise leaves the bag unchanged. -/
def Bag.set (DEFAULTS : Dict PVal) (b : Bag) (key : String) (value : PVal) :
    Option Bag :=
  if (dlookup DEFAULTS key).isSome then
    some (if pyEq ((dlookup b.props key).getD .none) value then b
          else { b with props := dictSet b.props key value, dirty := true })
  else
    none

/-- `PropertyBag.get` (property_bag.py lines 47-65) with the default
argument left at `None`: asserts `key in DEFAULTS`, then returns
`self._properties.get(key, self.DEFAULTS[key])`. -/
def Bag.get (DEFAULTS : Dict PVal) (b : Bag) (key : String) : Option PVal :=
  if (dlookup DEFAULTS key).isSome then
    some ((dlookup b.props key).getD ((dlookup DEFAULTS key).getD .none))
  else
    none

/-- Parse a JSON object file into the Python dictionary `json.load`
returns. -/
def jsonObjToPy (o : Dict JVal) : Dict PVal :=
  o.map (fun kv => (kv.1, jsonToPy kv.2))

/-- `PropertyBag.load` (property_bag.py lines 72-103).  Returns the new
bag state and the boolean result.  If there is no path or the file does
not exist: properties reset to defaults, `_dirty = False`, returns
`False`.  If the file is unparsable (`JSONDecodeError`/`IOError`):
properties reset to defaults, `_dirty = False`, returns `False`.
Otherwise: properties are `DEFAULTS.copy()` updated with the file's
contents, `_dirty = False`, returns `True`. -/
def Bag.load (DEFAULTS : Dict PVal) (b : Bag) (fs : FS) : Bag × Bool :=
  match b.file_path with
  | none => ({ b with props := DEFAULTS, dirty := false }, false)
  | some p =>
    match fs p with
    | .absent => ({ b with props := DEFAULTS, dirty := false }, false)
    | .corrupt => ({ b with props := DEFAULTS, dirty := false }, false)
    | .obj o =>
      ({ b with props := dictUpdate DEFAULTS (jsonObjToPy o), dirty := false },
       true)

/-- The JSON object `json.dump(self._properties, f)` writes. -/
def serializeProps (props : Dict PVal) : Dict JVal :=
  props.map (fun kv => (kv.1, pyToJson kv.2))

/-- `PropertyBag.save` (property_bag.py lines 105-128), bag state and
result.  `ioOk` is the environment's verdict on the file write (an
`IOError` is raised exactly when it is false).  No path: returns
`False`, bag unchanged.  Write fails: returns `False`, properties and
`_dirty` unchanged.  Write succeeds: `_dirty = False`, returns
`True`. -/
def Bag.save (b : Bag) (ioOk : Bool) : Bag × Bool :=
  match b.file_path with
  | none => (b, false)
  | some _ => if ioOk then ({ b with dirty := false }, true) else (b, false)

/-- The filesystem after a successful `PropertyBag.save`: the full
`_properties` map serialised at `file_path`. -/
def Bag.saveFs (b : Bag) (fs : FS) : FS :=
  match b.file_path with
  | none => fs
  | some p => fsWrite fs p (.obj (serializeProps b.props))

/-- A filesystem side effect of `PropertyBag.save`. -/
inductive FsEvent where
  | makedirs (dir : String)
  | openTrunc (p : String)
  | writeAll (p : String) (c : FileContent)

/-- The sequence of filesystem operations a successful
`PropertyBag.save` performs (property_bag.py lines 113-121):
`os.makedirs(os.path.dirname(self.file_path), exist_ok=True)`, then
`open(self.file_path, 'w')` — which truncates the destination in
place — then the `json.dump` of the full property map. -/
def Bag.saveEvents (b : Bag) : List FsEvent :=
  match b.file_path with
  | none => []
  | some p =>
    [.makedirs (dirname p), .openTrunc p,
     .writeAll p (.obj (serializeProps b.props))]

/-- The successive contents of the destination file during a
`PropertyBag.save` that runs to completion: the previous contents,
then the truncated (empty, hence unparsable) file left by
`open(self.file_path, 'w')`, then the new JSON object.  An
interruption mid-write leaves the destination in one of the listed
states. -/
def Bag.saveDestTrace (b : Bag) (fs : FS) : List FileContent :=
  match b.file_path with
  | none => []
  | some p => [fs p, .corrupt, .obj (serializeProps b.props)]

/-! ## Theme (`src/theme.py`) -/

/-- `Theme.DEFAULTS` (theme.py lines 18-103), every key with its
default value.  RGB colors are Python tuples of three floats. -/
def themeDefaults : Dict PVal :=
  [("show_numbers", .bool true),
   ("show_hour_ticks", .bool true),
   ("show_minute_ticks", .bool true),
   ("background_color", .tuple [.num 1, .num 1, .num 1]),
   ("background_opacity", .num (7/10)),
   ("face_texture_source", .str "builtin"),
   ("face_texture_name", .none),
   ("enable_face_color", .bool true),
   ("enable_face_texture", .bool false),
   ("face_color_opacity", .num (85/100)),
   ("face_texture_opacity", .num 1),
   ("rim_width", .num (1/100)),
   ("rim_opacity", .num 1),
   ("rim_color", .tuple [.num 0, .num 0, .num 0]),
   ("hour_tick_size", .num (22/1000)),
   ("hour_tick_position", .num (975/1000)),
   ("hour_tick_style", .str "square"),
   ("hour_tick_aspect_ratio", .num 1),
   ("minute_tick_size", .num (18/1000)),
   ("minute_tick_position", .num (975/1000)),
   ("minute_tick_style", .str "rectangular"),
   ("minute_tick_aspect_ratio", .num (2871745887492587/10000000000000000)),
   ("number_position", .num (823/1000)),
   ("number_size", .num (155/1000)),
   ("number_font", .str "Sans"),
   ("number_bold", .bool true),
   ("use_roman_numerals", .bool false),
   ("show_cardinal_numbers_only", .bool false),
   ("hour_hand_length", .num (509/1000)),
   ("hour_hand_tail", .num (99/1000)),
   ("hour_hand_width", .num (41/1000)),
   ("hour_hand_image_width", .num 1),
   ("hour_hand_image_source", .str "none"),
   ("hour_hand_image_name", .none),
   ("minute_hand_length", .num (74/100)),
   ("minute_hand_tail", .num (16/100)),
   ("minute_hand_width", .num (25/1000)),
   ("minute_hand_image_width", .num 1),
   ("minute_hand_image_source", .str "none"),
   ("minute_hand_image_name", .none),
   ("second_hand_length", .num (88/100)),
   ("second_hand_tail", .num (2/10)),
   ("second_hand_width", .num (1/100)),
   ("second_hand_image_width", .num 1),
   ("second_hand_image_source", .str "none"),
   ("second_hand_image_name", .none),
   ("center_dot_radius", .num (4/100)),
   ("date_box_width", .num (118/100)),
   ("date_box_height", .num (24/100)),
   ("date_box_margin", .num (12/100)),
   ("date_format", .str "%a, %d %b"),
   ("date_font_size", .num (1/10)),
   ("date_font", .str "Sans"),
   ("date_bold", .bool false),
   ("hands_color", .tuple [.num 0, .num 0, .num 0]),
   ("numbers_color", .tuple [.num 0, .num 0, .num 0]),
   ("ticks_color", .tuple [.num 0, .num 0, .num 0]),
   ("minute_ticks_color", .tuple [.num 0, .num 0, .num 0]),
   ("border_color", .tuple [.num 0, .num 0, .num 0]),
   ("second_hand_color", .tuple [.num 1, .num 0, .num 0]),
   ("date_text_color", .tuple [.num 0, .num 0, .num 0])]

/-- The state of a `Theme`: its name plus the `PropertyBag` state. -/
structure ThemeBag where
  name : String
  bag : Bag

/-- One step of the backward compatibility migration in `Theme.load`
(theme.py lines 161-171): if the loaded file has no
`<hand>_hand_image_width` key, set that property to `1.0` ("old theme -
preserve loaded width, add default image_width"); otherwise leave the
properties alone ("both values are already loaded correctly"). -/
def migStep (loaded : Dict JVal) (acc : Dict PVal) (hand_type : String) :
    Dict PVal :=
  if (dlookup loaded (hand_type ++ "_hand_image_width")).isSome then acc
  else dictSet acc (hand_type ++ "_hand_image_width") (.num 1)

/-- The whole migration loop of `Theme.load`:
`for hand_type in ['hour', 'minute', 'second']`. -/
def themeMigrate (loaded : Dict JVal) (props : Dict PVal) : Dict PVal :=
  ["hour", "minute", "second"].foldl (migStep loaded) props

/-- `Theme.load` (theme.py lines 128-183).  The `default` theme always
resets to `DEFAULTS` and returns `True`.  A missing file resets to
defaults and returns `False`.  A corrupted file resets to defaults,
leaves the file untouched and returns `False`.  Otherwise properties
are defaults overlaid with the file contents, then migrated, with
`_dirty = False` and result `True`. -/
def ThemeBag.load (t : ThemeBag) (fs : FS) : ThemeBag × Bool :=
  if t.name = "default" then
    ({ t with bag := { t.bag with props := themeDefaults, dirty := false } },
     true)
  else
    match t.bag.file_path with
    | none =>
      ({ t with bag := { t.bag with props := themeDefaults, dirty := false } },
       false)
    | some p =>
      match fs p with
      | .absent =>
        ({ t with bag := { t.bag with props := themeDefaults, dirty := false } },
         false)
      | .corrupt =>
        ({ t with bag := { t.bag with props := themeDefaults, dirty := false } },
         false)
      | .obj o =>
        ({ t with bag :=
            { t.bag with
              props := themeMigrate o (dictUpdate themeDefaults (jsonObjToPy o)),
              dirty := false } },
         true)

/-- `Theme.save` (theme.py lines 185-197): the `default` theme is never
saved; otherwise defers to `PropertyBag.save`. -/
def ThemeBag.save (t : ThemeBag) (ioOk : Bool) : ThemeBag × Bool :=
  if t.name = "default" then (t, false)
  else
    let r := t.bag.save ioOk
    ({ t with bag := r.1 }, r.2)

/-! ## Hand rendering (`src/dsclock.py`)

Cairo calls are embedded as draw commands carrying the numbers the code
computes: angles in degrees (the argument passed to `math.radians`),
scale factors, pivot coordinates.  Values obtained through
`self.theme.get(...)` and `self.settings.get(...)` are passed in a
`HandTheme` record and a snap flag; the resolved image path (the result
of `resolve_hand_image_path`, which consults the real filesystem) is a
parameter.  `GdkPixbuf.Pixbuf.new_from_file` is a function from paths
to `Option Image`; `none` models the exception it raises, which is the
source of the `except` path of `_draw_hand_image`. -/

/-- An RGB color triple (floats in `[0,1]`). -/
abbrev RGB := Rat × Rat × Rat

/-- One pixel of a loaded pixbuf (byte channels 0..255). -/
structure Pixel where
  r : Nat
  g : Nat
  b : Nat
  a : Nat

/-- A loaded pixbuf: dimensions, alpha flag, pixels in row-major
order. -/
structure Image where
  width : Nat
  height : Nat
  hasAlpha : Bool
  pix : List (List Pixel)

/-- The marker test of `_find_red_pixel` (dsclock.py lines 1162-1170):
RGB exactly `(255, 0, 0)`, and fully opaque when the pixbuf has an
alpha channel. -/
def isRedMarker (hasAlpha : Bool) (p : Pixel) : Bool :=
  p.r == 255 && p.g == 0 && p.b == 0 && (!hasAlpha || p.a == 255)

/-- Scan one row for the marker (inner `for x in range(width)` loop). -/
def findRedInRow (hasAlpha : Bool) : List Pixel → Nat → Option Nat
  | [], _ => none
  | p :: rest, x =>
    if isRedMarker hasAlpha p then some x else findRedInRow hasAlpha rest (x + 1)

/-- Scan the rows for the marker (outer `for y in range(height)`
loop). -/
def findRedRows (hasAlpha : Bool) : List (List Pixel) → Nat → Option (Nat × Nat)
  | [], _ => none
  | row :: rows, y =>
    match findRedInRow hasAlpha row 0 with
    | some x => some (x, y)
    | none => findRedRows hasAlpha rows (y + 1)

/-- `AnalogClock._find_red_pixel` (dsclock.py lines 1142-1172): the
first pixel in row-major order that is exactly `(255, 0, 0)` (and fully
opaque when the image has alpha), or `None`. -/
def findRedPixel (img : Image) : Option (Nat × Nat) :=
  findRedRows img.hasAlpha img.pix 0

/-- The pivot used by `_draw_hand_image` (dsclock.py lines 1200-1203):
the detected red pixel, with the image's geometric center
`(width / 2, height / 2)` as the fallback. -/
def imagePivot (img : Image) : Rat × Rat :=
  match findRedPixel img with
  | some (x, y) => ((x : Rat), (y : Rat))
  | none => ((img.width : Rat) / 2, (img.height : Rat) / 2)

/-- One pixel of the colorized surface: exact color channels and the
byte alpha kept from the source. -/
structure CPixel where
  r : Rat
  g : Rat
  b : Rat
  a : Nat

/-- A colorized cairo surface. -/
structure CImage where
  width : Nat
  height : Nat
  pix : List (List CPixel)

/-- The colorization pass of `_draw_hand_image` (dsclock.py lines
1208-1219): paint the pixbuf (alpha mask), then paint the hand color
with `OPERATOR_IN`, which keeps the destination's alpha and takes the
source's color.  A pixbuf without an alpha channel paints fully
opaque. -/
def colorizePixel (c : RGB) (hasAlpha : Bool) (p : Pixel) : CPixel :=
  ⟨c.1, c.2.1, c.2.2, if hasAlpha then p.a else 255⟩

/-- Colorize a whole image. -/
def colorizeImage (c : RGB) (img : Image) : CImage :=
  ⟨img.width, img.height,
   img.pix.map (fun row => row.map (colorizePixel c img.hasAlpha))⟩

/-- A key of `self._hand_image_cache`:
`(image_path, tuple(hand_color))` (dsclock.py line 1190). -/
abbrev CacheKey := String × RGB

/-- `self._hand_image_cache`: keys to `(colored_surface, pivot)`. -/
abbrev HandCache := List (CacheKey × (CImage × (Rat × Rat)))

/-- Python dict lookup in the hand image cache. -/
def cacheLookup : HandCache → CacheKey → Option (CImage × (Rat × Rat))
  | [], _ => none
  | kv :: c, k => if kv.1 = k then some kv.2 else cacheLookup c k

/-- The hand types of the three clock hands. -/
inductive HandType where
  | hour
  | minute
  | second

/-- Hour hand angle in degrees (dsclock.py lines 1049 and 1228):
`(hours + minutes / 60) * 30 - 90`. -/
def hourAngleDeg (hours minutes : Rat) : Rat :=
  (hours + minutes / 60) * 30 - 90

/-- Minute hand angle in degrees (dsclock.py lines 1083-1086 and
1230-1234): `minutes * 6 - 90` when `minute_hand_snap` is set,
`(minutes + seconds / 60) * 6 - 90` otherwise. -/
def minuteAngleDeg (snap : Bool) (minutes seconds : Rat) : Rat :=
  if snap then minutes * 6 - 90 else (minutes + seconds / 60) * 6 - 90

/-- Second hand angle in degrees (dsclock.py lines 1119 and 1236):
`seconds * 6 - 90`. -/
def secondAngleDeg (seconds : Rat) : Rat :=
  seconds * 6 - 90

/-- The vertical scale of `_draw_hand_image` (dsclock.py lines
1255-1258): `target_length / distance_to_top` when the pivot is below
the top edge, `1.0` otherwise. -/
def handScaleY (radius hand_length pivot_y : Rat) : Rat :=
  let target_length := radius * hand_length
  if pivot_y > 0 then target_length / pivot_y else 1

/-- The horizontal scale of `_draw_hand_image` (dsclock.py lines
1260-1265): the base width scale is `scale_y` (aspect preserving), the
configured image width multiplier is applied on top. -/
def handScaleX (scale_y hand_width : Rat) : Rat :=
  scale_y * hand_width

/-- The theme and settings values the hand drawing code reads through
`self.theme.get(...)`. -/
structure HandTheme where
  hands_color : RGB
  second_hand_color : RGB
  hour_hand_length : Rat
  hour_hand_tail : Rat
  hour_hand_width : Rat
  hour_hand_image_width : Rat
  minute_hand_length : Rat
  minute_hand_tail : Rat
  minute_hand_width : Rat
  minute_hand_image_width : Rat
  second_hand_length : Rat
  second_hand_tail : Rat
  second_hand_width : Rat
  second_hand_image_width : Rat

/-- An embedded cairo drawing command for one hand.  `strokeHand` is
the procedural (vector) stroke: angle in degrees, tip length, tail
length, line width (all already multiplied by the radius) and color.
`paintHand` is the image blit: angle in degrees, the two scale factors,
the pivot the surface is translated by, and the colorized surface. -/
inductive DrawOp where
  | strokeHand (angleDeg length tail lineWidth : Rat) (color : RGB)
  | paintHand (angleDeg scaleX scaleY : Rat) (pivot : Rat × Rat) (img : CImage)

/-- The outcome of `_draw_hand_image`: the cache afterwards, whether a
colorization pass ran, and the emitted draw commands (empty exactly
when the `except` path printed and fell through without drawing). -/
structure HandDrawResult where
  cache : HandCache
  colorized : Bool
  ops : List DrawOp

/-- The angle `_draw_hand_image` computes for a hand type (dsclock.py
lines 1226-1236). -/
def handAngleDeg (snap : Bool) (hand_type : HandType)
    (hours minutes seconds : Rat) : Rat :=
  match hand_type with
  | .hour => hourAngleDeg hours minutes
  | .minute => minuteAngleDeg snap minutes seconds
  | .second => secondAngleDeg seconds

/-- The hand color `_draw_hand_image` reads from the theme (dsclock.py
lines 1183-1187): `second_hand_color` for the second hand,
`hands_color` for the hour and minute hands. -/
def handColor (th : HandTheme) : HandType → RGB
  | .second => th.second_hand_color
  | _ => th.hands_color

/-- The `(hand_length, hand_width)` pair `_draw_hand_image` reads from
the theme (dsclock.py lines 1238-1248): the hand length and the image
width multiplier of the hand type. -/
def handImageParams (th : HandTheme) (hand_type : HandType) : Rat × Rat :=
  match hand_type with
  | .hour => (th.hour_hand_length, th.hour_hand_image_width)
  | .minute => (th.minute_hand_length, th.minute_hand_image_width)
  | .second => (th.second_hand_length, th.second_hand_image_width)

/-- `AnalogClock._draw_hand_image` (dsclock.py lines 1174-1288).
The hand color is `second_hand_color` for the second hand and
`hands_color` otherwise; the cache is consulted under
`(image_path, hand_color)`; on a miss the pixbuf is loaded, the pivot
detected, the surface colorized and the pair cached; then the surface
is painted rotated by the hand angle and scaled by
`(scale_x, scale_y)` around the pivot.  Any exception — modelled at
its source, the pixbuf load — reaches the `except` handler, which
prints and draws nothing. -/
def drawHandImage (th : HandTheme) (snap : Bool)
    (imgFs : String → Option Image) (cache : HandCache) (radius : Rat)
    (image_path : String) (hours minutes : Rat) (hand_type : HandType)
    (seconds : Rat) : HandDrawResult :=
  let hand_color := handColor th hand_type
  let cache_key : CacheKey := (image_path, hand_color)
  let params := handImageParams th hand_type
  let angle := handAngleDeg snap hand_type hours minutes seconds
  match cacheLookup cache cache_key with
  | some (colored_surface, pivot) =>
    let scale_y := handScaleY radius params.1 pivot.2
    let scale_x := handScaleX scale_y params.2
    ⟨cache, false, [.paintHand angle scale_x scale_y pivot colored_surface]⟩
  | none =>
    match imgFs image_path with
    | none => ⟨cache, false, []⟩
    | some pixbuf =>
      let pivot := imagePivot pixbuf
      let colored_surface := colorizeImage hand_color pixbuf
      let cache' := cache ++ [(cache_key, (colored_surface, pivot))]
      let scale_y := handScaleY radius params.1 pivot.2
      let scale_x := handScaleX scale_y params.2
      ⟨cache', true, [.paintHand angle scale_x scale_y pivot colored_surface]⟩

/-- `AnalogClock.draw_hour_hand` (dsclock.py lines 1036-1066): image
mode when a hand image path resolves, the procedural stroke
otherwise. -/
def drawHourHand (th : HandTheme) (snap : Bool) (resolved : Option String)
    (imgFs : String → Option Image) (cache : HandCache)
    (radius hours minutes : Rat) : HandCache × List DrawOp :=
  match resolved with
  | some hand_image_path =>
    let r := drawHandImage th snap imgFs cache radius hand_image_path
      hours minutes .hour 0
    (r.cache, r.ops)
  | none =>
    (cache,
     [.strokeHand (hourAngleDeg hours minutes) (radius * th.hour_hand_length)
        (radius * th.hour_hand_tail) (radius * th.hour_hand_width)
        th.hands_color])

/-- `AnalogClock.draw_minute_hand` (dsclock.py lines 1068-1104). -/
def drawMinuteHand (th : HandTheme) (snap : Bool) (resolved : Option String)
    (imgFs : String → Option Image) (cache : HandCache)
    (radius minutes seconds : Rat) : HandCache × List DrawOp :=
  match resolved with
  | some hand_image_path =>
    let r := drawHandImage th snap imgFs cache radius hand_image_path
      0 minutes .minute seconds
    (r.cache, r.ops)
  | none =>
    (cache,
     [.strokeHand (minuteAngleDeg snap minutes seconds)
        (radius * th.minute_hand_length) (radius * th.minute_hand_tail)
        (radius * th.minute_hand_width) th.hands_color])

/-- `AnalogClock.draw_second_hand` (dsclock.py lines 1106-1136). -/
def drawSecondHand (th : HandTheme) (snap : Bool) (resolved : Option String)
    (imgFs : String → Option Image) (cache : HandCache)
    (radius seconds : Rat) : HandCache × List DrawOp :=
  match resolved with
  | some hand_image_path =>
    let r := drawHandImage th snap imgFs cache radius hand_image_path
      0 0 .second seconds
    (r.cache, r.ops)
  | none =>
    (cache,
     [.strokeHand (secondAngleDeg seconds) (radius * th.second_hand_length)
        (radius * th.second_hand_tail) (radius * th.second_hand_width)
        th.second_hand_color])

/-- The pixel of a loaded image at column `x`, row `y`. -/
def pixelAt (img : Image) (x y : Nat) : Option Pixel :=
  img.pix[y]?.bind (fun row => row[x]?)

/-- The pixel of a colorized surface at column `x`, row `y`. -/
def cpixelAt (img : CImage) (x y : Nat) : Option CPixel :=
  img.pix[y]?.bind (fun row => row[x]?)

theorem cpixelAt_colorizeImage (c : RGB) (img : Image) (x y : Nat) :
    cpixelAt (colorizeImage c img) x y =
      (pixelAt img x y).map (colorizePixel c img.hasAlpha) := by
  unfold cpixelAt colorizeImage pixelAt
  simp only [List.getElem?_map]
  cases img.pix[y]? with
  | none => rfl
  | some row => simp [List.getElem?_map]

/-- A 20×50 test bitmap whose only red marker pixel sits at column 10,
row 40 (the scenario of claim C9); all other pixels are fully
transparent. -/
def pivotTestImage : Image :=
  { width := 20, height := 50, hasAlpha := true,
    pix := (List.range 50).map (fun y => (List.range 20).map (fun x =>
      if x = 10 ∧ y = 40 then ⟨255, 0, 0, 255⟩ else ⟨0, 0, 0, 0⟩)) }

/-- A 2×2 test bitmap whose red marker pixel sits on the top edge, at
`(0, 0)` (the degenerate pivot of claim C10). -/
def topPivotImage : Image :=
  { width := 2, height := 2, hasAlpha := true,
    pix := [[⟨255, 0, 0, 255⟩, ⟨0, 0, 0, 0⟩],
            [⟨0, 0, 0, 255⟩, ⟨0, 0, 0, 0⟩]] }

/-- A concrete theme record used to instantiate the rendering
theorems. -/
def sampleTheme : HandTheme :=
  { hands_color := (0, 0, 0),
    second_hand_color := (1, 0, 0),
    hour_hand_length := 509/1000, hour_hand_tail := 99/1000,
    hour_hand_width := 41/1000, hour_hand_image_width := 1,
    minute_hand_length := 74/100, minute_hand_tail := 16/100,
    minute_hand_width := 25/1000, minute_hand_image_width := 1,
    second_hand_length := 88/100, second_hand_tail := 2/10,
    second_hand_width := 1/100, second_hand_image_width := 1 }

/-- C7: for every time, the hour hand is drawn at
`(hours + minutes/60)·30° − 90°`, the minute hand at `minutes·6° − 90°`
with snap-to-minute and `(minutes + seconds/60)·6° − 90°` without, and
the second hand at `seconds·6° − 90°`; each vector draw emits its
stroke at exactly that angle; the hour hand at 3:00:00 and the minute
hand at 15 minutes with snap enabled both give angle 0°. -/
theorem C7_hand_angles :
    (∀ hours minutes : Rat,
       hourAngleDeg hours minutes = (hours + minutes / 60) * 30 - 90) ∧
    (∀ minutes seconds : Rat,
       minuteAngleDeg true minutes seconds = minutes * 6 - 90) ∧
    (∀ minutes seconds : Rat,
       minuteAngleDeg false minutes seconds = (minutes + seconds / 60) * 6 - 90) ∧
    (∀ seconds : Rat, secondAngleDeg seconds = seconds * 6 - 90) ∧
    (∀ th snap imgFs cache radius hours minutes,
       (drawHourHand th snap Option.none imgFs cache radius hours minutes).2 =
         [DrawOp.strokeHand (hourAngleDeg hours minutes)
            (radius * th.hour_hand_length) (radius * th.hour_hand_tail)
            (radius * th.hour_hand_width) th.hands_color]) ∧
    (∀ th snap imgFs cache radius minutes seconds,
       (drawMinuteHand th snap Option.none imgFs cache radius minutes seconds).2 =
         [DrawOp.strokeHand (minuteAngleDeg snap minutes seconds)
            (radius * th.minute_hand_length) (radius * th.minute_hand_tail)
            (radius * th.minute_hand_width) th.hands_color]) ∧
    (∀ th snap imgFs cache radius seconds,
       (drawSecondHand th snap Option.none imgFs cache radius seconds).2 =
         [DrawOp.strokeHand (secondAngleDeg seconds)
            (radius * th.second_hand_length) (radius * th.second_hand_tail)
            (radius * th.second_hand_width) th.second_hand_color]) ∧
    hourAngleDeg 3 0 = 0 ∧
    minuteAngleDeg true 15 0 = 0 := by
  refine ⟨fun _ _ => rfl, fun _ _ => rfl, fun _ _ => rfl, fun _ => rfl,
    fun _ _ _ _ _ _ _ => rfl, fun _ _ _ _ _ _ _ => rfl,
    fun _ _ _ _ _ _ => rfl, ?_, ?_⟩
  · norm_num [hourAngleDeg]
  · norm_num [minuteAngleDeg]

/-- C5 (the code as written): when loading the configured hand image
raises — here the pixbuf loader fails on every path — the draw
functions emit no draw command at all for that hand: the `except`
handler prints and falls through without attempting the vector stroke,
so the hand is left undrawn for the frame. -/
theorem C5_image_error_draws_nothing :
    (∀ th snap radius hours minutes p,
       (drawHourHand th snap (some p) (fun _ => Option.none) [] radius
          hours minutes).2 = []) ∧
    (∀ th snap radius minutes seconds p,
       (drawMinuteHand th snap (some p) (fun _ => Option.none) [] radius
          minutes seconds).2 = []) ∧
    (∀ th snap radius seconds p,
       (drawSecondHand th snap (some p) (fun _ => Option.none) [] radius
          seconds).2 = []) :=
  ⟨fun _ _ _ _ _ _ => rfl, fun _ _ _ _ _ _ => rfl, fun _ _ _ _ _ => rfl⟩

/-- C9: for a detected pivot strictly below the top edge, the vertical
scale of an image hand is `(handLength·radius)/pivot.y` and the
horizontal scale is that times the image width multiplier; in the 20×50
test bitmap with the marker at `(10, 40)`, `handLength = 0.5` and
`radius = 100` give `scaleY = 5/4`, and a width multiplier of `2.0`
gives `scaleX = 5/2`. -/
theorem C9_image_hand_scale :
    (∀ radius hand_length pivot_y : Rat, 0 < pivot_y →
       handScaleY radius hand_length pivot_y = hand_length * radius / pivot_y) ∧
    (∀ radius hand_length pivot_y mult : Rat, 0 < pivot_y →
       handScaleX (handScaleY radius hand_length pivot_y) mult =
         hand_length * radius / pivot_y * mult) ∧
    findRedPixel pivotTestImage = some (10, 40) ∧
    imagePivot pivotTestImage = (10, 40) ∧
    handScaleY 100 (1/2) 40 = 5/4 ∧
    handScaleX (handScaleY 100 (1/2) 40) 2 = 5/2 := by
  refine ⟨?_, ?_, by decide, by decide, by norm_num [handScaleY],
    by norm_num [handScaleY, handScaleX]⟩
  · intro radius hand_length pivot_y h
    simp only [handScaleY, if_pos h]
    ring
  · intro radius hand_length pivot_y mult h
    simp only [handScaleY, handScaleX, if_pos h]
    ring

/-- C9 witness: the two scale equations instantiated at the concrete
scenario `radius = 100`, `handLength = 1/2`, `pivot_y = 40`,
`mult = 2`. -/
theorem C9_image_hand_scale_witness :
    handScaleY 100 (1/2) 40 = (1/2) * 100 / 40 ∧
    handScaleX (handScaleY 100 (1/2) 40) 2 = (1/2) * 100 / 40 * 2 :=
  ⟨C9_image_hand_scale.1 100 (1/2) 40 (by norm_num),
   C9_image_hand_scale.2.1 100 (1/2) 40 2 (by norm_num)⟩

/-- C10: with the pivot on the image's top edge (`pivot.y = 0`) the
scale computation takes the guarded branch and yields a vertical scale
of `1.0` instead of dividing by zero, and the image hand is still
drawn: the draw emits its paint command with `scaleY = 1` and
`scaleX = 1 · imageWidthMultiplier`. -/
theorem C10_top_edge_pivot_total :
    (∀ radius hand_length : Rat, handScaleY radius hand_length 0 = 1) ∧
    (∀ th snap imgFs cache radius image_path img hours minutes seconds ht,
       cacheLookup cache (image_path, handColor th ht) = none →
       imgFs image_path = some img →
       (imagePivot img).2 = 0 →
       (drawHandImage th snap imgFs cache radius image_path hours minutes
          ht seconds).ops =
         [DrawOp.paintHand (handAngleDeg snap ht hours minutes seconds)
            (handImageParams th ht).2 1 (imagePivot img)
            (colorizeImage (handColor th ht) img)]) := by
  constructor
  · intro radius hand_length
    simp [handScaleY]
  · intro th snap imgFs cache radius image_path img hours minutes seconds ht
      h1 h2 h3
    simp only [drawHandImage, h1, h2, h3, handScaleY, handScaleX]
    simp

/-- C10 witness: the scale guard and the full image draw evaluated at
the 2×2 bitmap whose marker sits at `(0, 0)`. -/
theorem C10_top_edge_pivot_total_witness :
    handScaleY 100 (509/1000) 0 = 1 ∧
    (drawHandImage sampleTheme true (fun _ => some topPivotImage) [] 100
       "hands/custom/hour.png" 3 0 HandType.hour 0).ops =
      [DrawOp.paintHand (handAngleDeg true HandType.hour 3 0 0)
         (handImageParams sampleTheme HandType.hour).2 1
         (imagePivot topPivotImage)
         (colorizeImage (handColor sampleTheme HandType.hour) topPivotImage)] :=
  ⟨C10_top_edge_pivot_total.1 100 (509/1000),
   C10_top_edge_pivot_total.2 sampleTheme true _ [] 100 "hands/custom/hour.png"
     topPivotImage 3 0 0 HandType.hour rfl rfl (by decide)⟩

theorem cacheLookup_append_self (cache : HandCache) (k : CacheKey)
    (e : CImage × (Rat × Rat)) (h : cacheLookup cache k = none) :
    cacheLookup (cache ++ [(k, e)]) k = some e := by
  induction cache with
  | nil => simp [cacheLookup]
  | cons kv c ih =>
    simp only [cacheLookup, List.cons_append] at *
    by_cases hkv : kv.1 = k
    · rw [if_pos hkv] at h; exact absurd h (by simp)
    · rw [if_neg hkv] at h ⊢; exact ih h

theorem cacheLookup_append_other (cache : HandCache) (k k' : CacheKey)
    (e : CImage × (Rat × Rat)) (h : k' ≠ k) :
    cacheLookup (cache ++ [(k, e)]) k' = cacheLookup cache k' := by
  induction cache with
  | nil => simp [cacheLookup, Ne.symm h]
  | cons kv c ih =>
    simp only [cacheLookup, List.cons_append]
    by_cases hkv : kv.1 = k'
    · rw [if_pos hkv, if_pos hkv]
    · rw [if_neg hkv, if_neg hkv]; exact ih

/-- C8: drawing a hand whose `(path, color)` key is cached performs no
colorization pass and leaves the cache unchanged; a completed draw
caches its key, so a second identical draw hits; a key inserted for one
color never serves a lookup under a different color; a miss on a
loadable image runs the colorization pass and appends exactly the
`(colorized surface, pivot)` entry; and in the colorized surface every
fully opaque black source pixel carries exactly the target color and
every fully transparent source pixel keeps alpha 0. -/
theorem C8_cache_colorize :
    (∀ th snap imgFs cache radius image_path hours minutes seconds ht entry,
       cacheLookup cache (image_path, handColor th ht) = some entry →
       (drawHandImage th snap imgFs cache radius image_path
          hours minutes ht seconds).colorized = false ∧
       (drawHandImage th snap imgFs cache radius image_path
          hours minutes ht seconds).cache = cache) ∧
    (∀ (cache : HandCache) (k : CacheKey) (e : CImage × (Rat × Rat)),
       cacheLookup cache k = none →
       cacheLookup (cache ++ [(k, e)]) k = some e) ∧
    (∀ (cache : HandCache) (p : String) (c c' : RGB)
       (e : CImage × (Rat × Rat)), c ≠ c' →
       cacheLookup (cache ++ [((p, c), e)]) (p, c') = cacheLookup cache (p, c')) ∧
    (∀ th snap imgFs cache radius image_path hours minutes seconds ht img,
       cacheLookup cache (image_path, handColor th ht) = none →
       imgFs image_path = some img →
       (drawHandImage th snap imgFs cache radius image_path
          hours minutes ht seconds).colorized = true ∧
       (drawHandImage th snap imgFs cache radius image_path
          hours minutes ht seconds).cache =
         cache ++ [((image_path, handColor th ht),
                    (colorizeImage (handColor th ht) img, imagePivot img))]) ∧
    (∀ (c : RGB) (img : Image) (x y : Nat) (pxl : Pixel),
       img.hasAlpha = true → pixelAt img x y = some pxl →
       (pxl.r = 0 → pxl.g = 0 → pxl.b = 0 → pxl.a = 255 →
          cpixelAt (colorizeImage c img) x y = some ⟨c.1, c.2.1, c.2.2, 255⟩) ∧
       (pxl.a = 0 →
          cpixelAt (colorizeImage c img) x y = some ⟨c.1, c.2.1, c.2.2, 0⟩)) := by
  refine ⟨?_, cacheLookup_append_self, ?_, ?_, ?_⟩
  · intro th snap imgFs cache radius image_path hours minutes seconds ht
      entry h
    obtain ⟨cs, piv⟩ := entry
    constructor <;> simp [drawHandImage, h]
  · intro cache p c c' e h
    apply cacheLookup_append_other
    intro hh
    injection hh with h1 h2
    exact h h2.symm
  · intro th snap imgFs cache radius image_path hours minutes seconds ht img
      h1 h2
    constructor <;> simp [drawHandImage, h1, h2]
  · intro c img x y pxl hAlpha hPix
    rw [cpixelAt_colorizeImage, hPix, hAlpha]
    constructor
    · intro hr hg hb ha
      simp [colorizePixel, ha]
    · intro ha
      simp [colorizePixel, ha]

/-- A 1×2 test bitmap with alpha: one fully opaque black pixel on top
of one fully transparent pixel. -/
def blackAlphaImage : Image :=
  { width := 1, height := 2, hasAlpha := true,
    pix := [[⟨0, 0, 0, 255⟩], [⟨10, 20, 30, 0⟩]] }

/-- C8 witness: the conjuncts of `C8_cache_colorize` instantiated on a
concrete cache, hand theme, image and color pair. -/
theorem C8_cache_colorize_witness :
    ((drawHandImage sampleTheme true (fun _ => some blackAlphaImage)
        [(("p.png", (0, 0, 0)),
          (colorizeImage (0, 0, 0) blackAlphaImage, (0, 1)))] 100 "p.png"
        3 0 HandType.hour 0).colorized = false ∧
     (drawHandImage sampleTheme true (fun _ => some blackAlphaImage)
        [(("p.png", (0, 0, 0)),
          (colorizeImage (0, 0, 0) blackAlphaImage, (0, 1)))] 100 "p.png"
        3 0 HandType.hour 0).cache =
       [(("p.png", (0, 0, 0)),
         (colorizeImage (0, 0, 0) blackAlphaImage, (0, 1)))]) ∧
    cacheLookup
      ([] ++ [(("p.png", (0, 0, 0)),
        (colorizeImage (0, 0, 0) blackAlphaImage, (0, 1)))])
      ("p.png", (0, 0, 0)) =
      some (colorizeImage (0, 0, 0) blackAlphaImage, (0, 1)) ∧
    cacheLookup
      ([] ++ [(("p.png", (0, 0, 0)),
        (colorizeImage (0, 0, 0) blackAlphaImage, (0, 1)))])
      ("p.png", (1, 0, 0)) = cacheLookup [] ("p.png", (1, 0, 0)) ∧
    ((drawHandImage sampleTheme true (fun _ => some blackAlphaImage) [] 100
        "p.png" 0 0 HandType.second 30).colorized = true ∧
     (drawHandImage sampleTheme true (fun _ => some blackAlphaImage) [] 100
        "p.png" 0 0 HandType.second 30).cache =
       [] ++ [(("p.png", (1, 0, 0)),
               (colorizeImage (1, 0, 0) blackAlphaImage,
                imagePivot blackAlphaImage))]) ∧
    cpixelAt (colorizeImage (1, 0, 0) blackAlphaImage) 0 0 =
      some ⟨1, 0, 0, 255⟩ ∧
    cpixelAt (colorizeImage (1, 0, 0) blackAlphaImage) 0 1 =
      some ⟨1, 0, 0, 0⟩ :=
  ⟨C8_cache_colorize.1 sampleTheme true _ _ 100 "p.png" 3 0 0 HandType.hour
     (colorizeImage (0, 0, 0) blackAlphaImage, (0, 1)) rfl,
   C8_cache_colorize.2.1 [] ("p.png", (0, 0, 0))
     (colorizeImage (0, 0, 0) blackAlphaImage, (0, 1)) rfl,
   C8_cache_colorize.2.2.1 [] "p.png" (0, 0, 0) (1, 0, 0)
     (colorizeImage (0, 0, 0) blackAlphaImage, (0, 1)) (by decide),
   C8_cache_colorize.2.2.2.1 sampleTheme true _ [] 100 "p.png" 0 0 30
     HandType.second blackAlphaImage rfl rfl,
   (C8_cache_colorize.2.2.2.2 (1, 0, 0) blackAlphaImage 0 0 ⟨0, 0, 0, 255⟩
      rfl rfl).1 rfl rfl rfl rfl,
   (C8_cache_colorize.2.2.2.2 (1, 0, 0) blackAlphaImage 0 1 ⟨10, 20, 30, 0⟩
      rfl rfl).2 rfl⟩

mutual
/-- The JSON encoding is stable under one parse/re-serialise cycle:
serialising the parse of a serialised value gives the same JSON. -/
theorem pyToJson_stable (v : PVal) :
    pyToJson (jsonToPy (pyToJson v)) = pyToJson v := by
  cases v <;>
    simp [pyToJson, jsonToPy, pyToJsonList, jsonToPyList, pyToJsonList_stable]

/-- List version of `pyToJson_stable`. -/
theorem pyToJsonList_stable (xs : List PVal) :
    pyToJsonList (jsonToPyList (pyToJsonList xs)) = pyToJsonList xs := by
  cases xs <;>
    simp [pyToJsonList, jsonToPyList, pyToJson_stable, pyToJsonList_stable]
end

mutual
/-- A tuple-free value survives the JSON round trip unchanged. -/
theorem jsonToPy_pyToJson_of_tupleFree (v : PVal) (h : tupleFree v = true) :
    jsonToPy (pyToJson v) = v := by
  cases v with
  | none => rfl
  | bool b => rfl
  | num q => rfl
  | str s => rfl
  | tuple xs => exact absurd h (by simp [tupleFree])
  | list xs =>
    simp only [pyToJson, jsonToPy, PVal.list.injEq]
    exact jsonToPyList_pyToJsonList_of_tupleFree xs (by simpa [tupleFree] using h)

/-- List version of `jsonToPy_pyToJson_of_tupleFree`. -/
theorem jsonToPyList_pyToJsonList_of_tupleFree (xs : List PVal)
    (h : tupleFreeList xs = true) : jsonToPyList (pyToJsonList xs) = xs := by
  cases xs with
  | nil => rfl
  | cons x xs =>
    simp only [tupleFreeList, Bool.and_eq_true] at h
    simp only [pyToJsonList, jsonToPyList, List.cons.injEq]
    exact ⟨jsonToPy_pyToJson_of_tupleFree x h.1,
           jsonToPyList_pyToJsonList_of_tupleFree xs h.2⟩
end

theorem mapVal_keys {α β : Type} (f : α → β) (e : Dict α) :
    (e.map (fun kv => (kv.1, f kv.2))).map Prod.fst = e.map Prod.fst := by
  induction e with
  | nil => rfl
  | cons kv e ih => simp only [List.map, ih]

/-- C1 (amended): `set(k, v)` with `v` Python-equal to the current value
changes nothing (in particular never marks dirty); `set(k, v)` with a
different value stores it and marks dirty; the dirty flag becomes false
on every `load()` — successful or failed, since a failed load resets the
store to defaults and clears the flag — and on a successful `save()`; a
`save()` that reports failure leaves the dirty flag unchanged. -/
theorem C1_dirty_flag :
    (∀ (D : Dict PVal) (b : Bag) k v b', Bag.set D b k v = some b' →
       pyEq ((dlookup b.props k).getD .none) v = true → b' = b) ∧
    (∀ (D : Dict PVal) (b : Bag) k v b', Bag.set D b k v = some b' →
       pyEq ((dlookup b.props k).getD .none) v = false →
       b'.dirty = true ∧ b'.props = dictSet b.props k v) ∧
    (∀ (D : Dict PVal) (b : Bag) (fs : FS), (Bag.load D b fs).1.dirty = false) ∧
    (∀ (b : Bag) ioOk, (Bag.save b ioOk).2 = true →
       (Bag.save b ioOk).1.dirty = false) ∧
    (∀ (b : Bag) ioOk, (Bag.save b ioOk).2 = false →
       (Bag.save b ioOk).1.dirty = b.dirty) := by
  refine ⟨?_, ?_, ?_, ?_, ?_⟩
  · intro D b k v b' hset hpy
    by_cases hD : (dlookup D k).isSome
    · simp only [Bag.set, if_pos hD, hpy, if_pos rfl, Option.some.injEq] at hset
      exact hset.symm
    · simp [Bag.set, if_neg hD] at hset
  · intro D b k v b' hset hpy
    by_cases hD : (dlookup D k).isSome
    · simp only [Bag.set, if_pos hD, hpy, Option.some.injEq] at hset
      rw [if_neg (by simp)] at hset
      subst hset
      exact ⟨rfl, rfl⟩
    · simp [Bag.set, if_neg hD] at hset
  · intro D b fs
    cases hp : b.file_path with
    | none => simp [Bag.load, hp]
    | some p => cases hc : fs p <;> simp [Bag.load, hp, hc]
  · intro b ioOk h
    cases hp : b.file_path with
    | none => simp [Bag.save, hp] at h
    | some p =>
      cases ioOk with
      | true => simp [Bag.save, hp]
      | false => simp [Bag.save, hp] at h
  · intro b ioOk h
    cases hp : b.file_path with
    | none => simp [Bag.save, hp]
    | some p =>
      cases ioOk with
      | true => simp [Bag.save, hp] at h
      | false => simp [Bag.save, hp]

/-- A one-key defaults dictionary used by the store counterexamples. -/
def oneKeyDefaults : Dict PVal := [("a", PVal.num 0)]

/-- A filesystem on which every path is absent. -/
def emptyFs : FS := fun _ => FileContent.absent

/-- C1 counterexample: a dirty in-memory store (no file path) on which
`load()` reports failure — yet the dirty flag is cleared, contradicting
"a load() that reports failure leaves dirty true if it was true". -/
theorem C1_dirty_flag_counterexample :
    Bag.set oneKeyDefaults (Bag.init Option.none oneKeyDefaults) "a"
        (.num 1) =
      some { file_path := Option.none, props := [("a", PVal.num 1)],
             dirty := true } ∧
    (Bag.load oneKeyDefaults
        { file_path := Option.none, props := [("a", PVal.num 1)],
          dirty := true } emptyFs).2 = false ∧
    (Bag.load oneKeyDefaults
        { file_path := Option.none, props := [("a", PVal.num 1)],
          dirty := true } emptyFs).1.dirty = false :=
  ⟨rfl, rfl, rfl⟩

/-- C1 witness: the `set` clauses of `C1_dirty_flag` instantiated: a
write of the current value leaves the one-key store untouched, a write
of a new value marks it dirty; the save clauses at a store with a
path. -/
theorem C1_dirty_flag_witness :
    Bag.init Option.none oneKeyDefaults = Bag.init Option.none oneKeyDefaults ∧
    ({ file_path := Option.none, props := [("a", PVal.num 1)],
       dirty := true } : Bag).dirty = true ∧
    (Bag.load oneKeyDefaults (Bag.init Option.none oneKeyDefaults)
        emptyFs).1.dirty = false ∧
    (Bag.save { file_path := some "cfg.json", props := oneKeyDefaults,
                dirty := true } true).1.dirty = false ∧
    (Bag.save { file_path := some "cfg.json", props := oneKeyDefaults,
                dirty := true } false).1.dirty =
      ({ file_path := some "cfg.json", props := oneKeyDefaults,
         dirty := true } : Bag).dirty :=
  ⟨C1_dirty_flag.1 oneKeyDefaults (Bag.init Option.none oneKeyDefaults) "a"
     (.num 0) (Bag.init Option.none oneKeyDefaults) rfl (by decide),
   (C1_dirty_flag.2.1 oneKeyDefaults (Bag.init Option.none oneKeyDefaults) "a"
     (.num 1) _ rfl (by decide)).1,
   C1_dirty_flag.2.2.1 oneKeyDefaults (Bag.init Option.none oneKeyDefaults)
     emptyFs,
   C1_dirty_flag.2.2.2.1 _ true rfl,
   C1_dirty_flag.2.2.2.2 _ false rfl⟩

/-- C2 (amended): a successful `save()` followed by `load()` on the same
path reproduces every field up to the JSON encoding — the loaded value
of each key is the parse of its serialisation, which is bit-for-bit
identical for null, booleans, numbers and strings (all tuple-free
values), serialises back to the same JSON, and excludes no field; RGB
tuples, however, come back as Python lists of the same elements. -/
theorem C2_roundtrip :
    ∀ (D : Dict PVal) (b : Bag) (fs : FS) p k v,
      b.file_path = some p →
      (b.props.map Prod.fst).Nodup →
      dlookup b.props k = some v →
      (Bag.save b true).2 = true ∧
      (Bag.load D (Bag.save b true).1 (Bag.saveFs b fs)).2 = true ∧
      dlookup (Bag.load D (Bag.save b true).1 (Bag.saveFs b fs)).1.props k =
        some (jsonToPy (pyToJson v)) ∧
      pyToJson (jsonToPy (pyToJson v)) = pyToJson v ∧
      (tupleFree v = true → jsonToPy (pyToJson v) = v) := by
  intro D b fs p k v hp hnd hk
  obtain ⟨fp, props, dirty⟩ := b
  simp only at hp
  subst hp
  have hload :
      Bag.load D (Bag.save ⟨some p, props, dirty⟩ true).1
          (Bag.saveFs ⟨some p, props, dirty⟩ fs) =
        (⟨some p,
          dictUpdate D (jsonObjToPy (serializeProps props)), false⟩, true) := by
    simp [Bag.save, Bag.saveFs, Bag.load, fsWrite]
  refine ⟨rfl, by rw [hload], ?_, pyToJson_stable v,
    jsonToPy_pyToJson_of_tupleFree v⟩
  rw [hload]
  have hcomp : jsonObjToPy (serializeProps props) =
      props.map (fun kv => (kv.1, jsonToPy (pyToJson kv.2))) := by
    simp [jsonObjToPy, serializeProps, List.map_map, Function.comp]
  show dlookup (dictUpdate D (jsonObjToPy (serializeProps props))) k =
    some (jsonToPy (pyToJson v))
  rw [hcomp]
  have hnd' : (props.map Prod.fst).Nodup := hnd
  have hk' : dlookup props k = some v := hk
  apply dlookup_dictUpdate_of_some
  · have h2 : (props.map (fun kv => (kv.1, jsonToPy (pyToJson kv.2)))).map
        Prod.fst = props.map Prod.fst :=
      mapVal_keys (fun x => jsonToPy (pyToJson x)) props
    rw [h2]
    exact hnd'
  · have h4 : dlookup (props.map (fun kv => (kv.1, jsonToPy (pyToJson kv.2)))) k
        = (dlookup props k).map (fun x => jsonToPy (pyToJson x)) :=
      dlookup_mapVal (fun x => jsonToPy (pyToJson x)) props k
    rw [h4, hk']
    rfl

/-- The single-field store of the C2 counterexample: the
`background_color` key with `Theme.DEFAULTS`' white RGB tuple. -/
def colorOnlyDefaults : Dict PVal :=
  [("background_color", PVal.tuple [.num 1, .num 1, .num 1])]

/-- A store holding `colorOnlyDefaults` with a file path. -/
def colorOnlyBag : Bag :=
  { file_path := some "themes/t.json", props := colorOnlyDefaults,
    dirty := false }

/-- C2 counterexample: after `save()` then `load()` on the same path,
the stored RGB triple comes back as a Python list, not the tuple that
was saved — the round trip is not bit-for-bit for tuple-valued
fields. -/
theorem C2_roundtrip_counterexample :
    dlookup colorOnlyBag.props "background_color" =
      some (PVal.tuple [.num 1, .num 1, .num 1]) ∧
    (Bag.save colorOnlyBag true).2 = true ∧
    dlookup (Bag.load colorOnlyDefaults (Bag.save colorOnlyBag true).1
        (Bag.saveFs colorOnlyBag emptyFs)).1.props "background_color" =
      some (PVal.list [.num 1, .num 1, .num 1]) ∧
    PVal.list [.num 1, .num 1, .num 1] ≠
      PVal.tuple [.num 1, .num 1, .num 1] :=
  ⟨rfl, rfl, rfl, fun h => nomatch h⟩

/-- C2 witness: `C2_roundtrip` applied to the concrete one-field color
store. -/
theorem C2_roundtrip_witness :
    (Bag.save colorOnlyBag true).2 = true ∧
    (Bag.load colorOnlyDefaults (Bag.save colorOnlyBag true).1
       (Bag.saveFs colorOnlyBag emptyFs)).2 = true ∧
    dlookup (Bag.load colorOnlyDefaults (Bag.save colorOnlyBag true).1
        (Bag.saveFs colorOnlyBag emptyFs)).1.props "background_color" =
      some (jsonToPy (pyToJson (PVal.tuple [.num 1, .num 1, .num 1]))) ∧
    pyToJson (jsonToPy (pyToJson (PVal.tuple [.num 1, .num 1, .num 1]))) =
      pyToJson (PVal.tuple [.num 1, .num 1, .num 1]) ∧
    (tupleFree (PVal.tuple [.num 1, .num 1, .num 1]) = true →
      jsonToPy (pyToJson (PVal.tuple [.num 1, .num 1, .num 1])) =
        PVal.tuple [.num 1, .num 1, .num 1]) :=
  C2_roundtrip colorOnlyDefaults colorOnlyBag emptyFs "themes/t.json"
    "background_color" (PVal.tuple [.num 1, .num 1, .num 1]) rfl
    (by simp [colorOnlyBag, colorOnlyDefaults]) rfl

/-- C3 (amended): keys present in the loaded file but not declared in
the defaults are not ignored — `load()` copies them into the store's
value map (parsed from JSON) and a later `save()` persists them —
while declared keys absent from the file do take their built-in default
values. -/
theorem C3_unknown_keys :
    (∀ (D : Dict PVal) (b : Bag) (fs : FS) p o k v,
       b.file_path = some p → fs p = .obj o → (o.map Prod.fst).Nodup →
       dlookup D k = none → dlookup o k = some v →
       dlookup (Bag.load D b fs).1.props k = some (jsonToPy v) ∧
       dlookup (serializeProps (Bag.load D b fs).1.props) k =
         some (pyToJson (jsonToPy v))) ∧
    (∀ (D : Dict PVal) (b : Bag) (fs : FS) p o k v,
       b.file_path = some p → fs p = .obj o →
       dlookup o k = none → dlookup D k = some v →
       dlookup (Bag.load D b fs).1.props k = some v) := by
  constructor
  · intro D b fs p o k v hp ho hnd hD hk
    obtain ⟨fp, props, dirty⟩ := b
    simp only at hp
    subst hp
    have hload : (Bag.load D ⟨some p, props, dirty⟩ fs).1.props =
        dictUpdate D (jsonObjToPy o) := by
      simp [Bag.load, ho]
    rw [hload]
    have hlk : dlookup (dictUpdate D (jsonObjToPy o)) k = some (jsonToPy v) := by
      apply dlookup_dictUpdate_of_some
      · have h2 : (o.map (fun kv => (kv.1, jsonToPy kv.2))).map Prod.fst =
            o.map Prod.fst := mapVal_keys jsonToPy o
        show ((o.map (fun kv => (kv.1, jsonToPy kv.2))).map Prod.fst).Nodup
        rw [h2]
        exact hnd
      · have h4 : dlookup (o.map (fun kv => (kv.1, jsonToPy kv.2))) k =
            (dlookup o k).map jsonToPy := dlookup_mapVal jsonToPy o k
        show dlookup (o.map (fun kv => (kv.1, jsonToPy kv.2))) k =
          some (jsonToPy v)
        rw [h4, hk]
        rfl
    refine ⟨hlk, ?_⟩
    have h5 : dlookup
        ((dictUpdate D (jsonObjToPy o)).map (fun kv => (kv.1, pyToJson kv.2))) k
        = (dlookup (dictUpdate D (jsonObjToPy o)) k).map pyToJson :=
      dlookup_mapVal pyToJson (dictUpdate D (jsonObjToPy o)) k
    show dlookup
      ((dictUpdate D (jsonObjToPy o)).map (fun kv => (kv.1, pyToJson kv.2))) k
      = some (pyToJson (jsonToPy v))
    rw [h5, hlk]
    rfl
  · intro D b fs p o k v hp ho hk hD
    obtain ⟨fp, props, dirty⟩ := b
    simp only at hp
    subst hp
    have hload : (Bag.load D ⟨some p, props, dirty⟩ fs).1.props =
        dictUpdate D (jsonObjToPy o) := by
      simp [Bag.load, ho]
    rw [hload]
    have hnone : dlookup (jsonObjToPy o) k = none := by
      have h4 : dlookup (o.map (fun kv => (kv.1, jsonToPy kv.2))) k =
          (dlookup o k).map jsonToPy := dlookup_mapVal jsonToPy o k
      show dlookup (o.map (fun kv => (kv.1, jsonToPy kv.2))) k = none
      rw [h4, hk]
      rfl
    rw [dlookup_dictUpdate_of_none _ hnone]
    exact hD

/-- The filesystem of the C3 counterexample: a profile file holding
only a key that no defaults dictionary declares. -/
def unknownKeyFs : FS :=
  fun q => if q = "cfg.json" then .obj [("bogus", .num 1)] else .absent

/-- The store of the C3 counterexample: one declared key, file path
`cfg.json`. -/
def unknownKeyBag : Bag :=
  { file_path := some "cfg.json", props := oneKeyDefaults, dirty := false }

/-- C3 counterexample: after loading a file with the undeclared key
`bogus`, that key is in the store's value map and in the JSON object a
later `save()` writes — contradicting "they do not enter the store's
value map and are not persisted by a later save()". -/
theorem C3_unknown_keys_counterexample :
    dlookup oneKeyDefaults "bogus" = none ∧
    dlookup (Bag.load oneKeyDefaults unknownKeyBag unknownKeyFs).1.props
      "bogus" = some (.num 1) ∧
    dlookup (serializeProps
        (Bag.load oneKeyDefaults unknownKeyBag unknownKeyFs).1.props)
      "bogus" = some (.num 1) :=
  ⟨rfl, rfl, rfl⟩

/-- C3 witness: `C3_unknown_keys` applied to the concrete store — the
undeclared key `bogus` is retained and persisted, the declared key `a`
absent from the file keeps its default. -/
theorem C3_unknown_keys_witness :
    (dlookup (Bag.load oneKeyDefaults unknownKeyBag unknownKeyFs).1.props
       "bogus" = some (jsonToPy (.num 1)) ∧
     dlookup (serializeProps
        (Bag.load oneKeyDefaults unknownKeyBag unknownKeyFs).1.props)
       "bogus" = some (pyToJson (jsonToPy (.num 1)))) ∧
    dlookup (Bag.load oneKeyDefaults unknownKeyBag unknownKeyFs).1.props "a" =
      some (PVal.num 0) :=
  ⟨C3_unknown_keys.1 oneKeyDefaults unknownKeyBag unknownKeyFs "cfg.json"
     [("bogus", .num 1)] "bogus" (.num 1) rfl rfl (by simp) rfl rfl,
   C3_unknown_keys.2 oneKeyDefaults unknownKeyBag unknownKeyFs "cfg.json"
     [("bogus", .num 1)] "a" (PVal.num 0) rfl rfl rfl rfl⟩

/-- C4 (amended): `save()` returns false when the store has no file
path; otherwise it creates parent directories as needed and writes the
full value set — but by truncating the destination file in place
(`open(path, 'w')`) and rewriting it, not by the write-new-then-replace
pattern: mid-write the destination holds the truncated, unparsable
state, so an interruption there destroys the previous on-disk
version. -/
theorem C4_save_truncates_in_place :
    (∀ (b : Bag) ioOk, b.file_path = Option.none → Bag.save b ioOk = (b, false)) ∧
    (∀ (b : Bag) p, b.file_path = some p →
       Bag.saveEvents b =
         [.makedirs (dirname p), .openTrunc p,
          .writeAll p (.obj (serializeProps b.props))]) ∧
    (∀ (b : Bag) p (fs : FS), b.file_path = some p →
       Bag.saveDestTrace b fs = [fs p, .corrupt, .obj (serializeProps b.props)]) ∧
    (∀ (b : Bag) p (fs : FS), b.file_path = some p →
       Bag.saveFs b fs p = .obj (serializeProps b.props)) ∧
    (∀ (b : Bag) p, b.file_path = some p →
       (Bag.save b true).2 = true ∧ (Bag.save b true).1.dirty = false) := by
  refine ⟨?_, ?_, ?_, ?_, ?_⟩
  · intro b ioOk hp
    obtain ⟨fp, props, dirty⟩ := b
    simp only at hp
    subst hp
    cases ioOk <;> rfl
  · intro b p hp
    obtain ⟨fp, props, dirty⟩ := b
    simp only at hp
    subst hp
    rfl
  · intro b p fs hp
    obtain ⟨fp, props, dirty⟩ := b
    simp only at hp
    subst hp
    rfl
  · intro b p fs hp
    obtain ⟨fp, props, dirty⟩ := b
    simp only at hp
    subst hp
    simp [Bag.saveFs, fsWrite]
  · intro b p hp
    obtain ⟨fp, props, dirty⟩ := b
    simp only at hp
    subst hp
    exact ⟨rfl, rfl⟩

/-- The filesystem of the C4 counterexample: the destination path holds
a readable previous version. -/
def oldVersionFs : FS :=
  fun q => if q = "cfg/settings.json" then .obj [("a", .num 0)] else .absent

/-- The store of the C4 counterexample. -/
def truncBag : Bag :=
  { file_path := some "cfg/settings.json", props := [("a", PVal.num 1)],
    dirty := true }

/-- C4 counterexample: during `save()` the destination passes through
the truncated state left by `open(path, 'w')`, which is not readable as
JSON although the previous version was — so an interruption mid-write
does not leave the previous on-disk version readable, contradicting the
write-new-then-replace requirement. -/
theorem C4_save_truncates_counterexample :
    readableAsJson (oldVersionFs "cfg/settings.json") = true ∧
    (Bag.saveDestTrace truncBag oldVersionFs)[1]? =
      some FileContent.corrupt ∧
    readableAsJson FileContent.corrupt = false :=
  ⟨rfl, rfl, rfl⟩

/-- C4 witness: `C4_save_truncates_in_place` applied at a pathless
store and at the concrete store `truncBag`. -/
theorem C4_save_truncates_in_place_witness :
    Bag.save (Bag.init Option.none oneKeyDefaults) true =
      (Bag.init Option.none oneKeyDefaults, false) ∧
    Bag.saveEvents truncBag =
      [.makedirs (dirname "cfg/settings.json"),
       .openTrunc "cfg/settings.json",
       .writeAll "cfg/settings.json" (.obj (serializeProps truncBag.props))] ∧
    Bag.saveDestTrace truncBag oldVersionFs =
      [oldVersionFs "cfg/settings.json", .corrupt,
       .obj (serializeProps truncBag.props)] ∧
    Bag.saveFs truncBag oldVersionFs "cfg/settings.json" =
      .obj (serializeProps truncBag.props) ∧
    ((Bag.save truncBag true).2 = true ∧
     (Bag.save truncBag true).1.dirty = false) :=
  ⟨C4_save_truncates_in_place.1 (Bag.init Option.none oneKeyDefaults) true rfl,
   C4_save_truncates_in_place.2.1 truncBag "cfg/settings.json" rfl,
   C4_save_truncates_in_place.2.2.1 truncBag "cfg/settings.json" oldVersionFs
     rfl,
   C4_save_truncates_in_place.2.2.2.1 truncBag "cfg/settings.json" oldVersionFs
     rfl,
   C4_save_truncates_in_place.2.2.2.2 truncBag "cfg/settings.json" rfl⟩

theorem migStep_lookup_other (o : Dict JVal) (acc : Dict PVal) (hand k : String)
    (h : k ≠ hand ++ "_hand_image_width") :
    dlookup (migStep o acc hand) k = dlookup acc k := by
  unfold migStep
  split
  · rfl
  · exact dlookup_dictSet_ne acc (PVal.num 1) h

theorem migStep_missing (o : Dict JVal) (acc : Dict PVal) (hand : String)
    (h : dlookup o (hand ++ "_hand_image_width") = none) :
    dlookup (migStep o acc hand) (hand ++ "_hand_image_width") =
      some (PVal.num 1) := by
  unfold migStep
  rw [h]
  exact dlookup_dictSet_self acc _ _

theorem migStep_present (o : Dict JVal) (acc : Dict PVal) (hand : String)
    (h : (dlookup o (hand ++ "_hand_image_width")).isSome) :
    migStep o acc hand = acc := by
  unfold migStep
  rw [if_pos h]

theorem themeMigrate_width_key (o : Dict JVal) (props : Dict PVal) (k : String)
    (h1 : k ≠ "hour_hand_image_width") (h2 : k ≠ "minute_hand_image_width")
    (h3 : k ≠ "second_hand_image_width") :
    dlookup (themeMigrate o props) k = dlookup props k := by
  have htm : themeMigrate o props =
      migStep o (migStep o (migStep o props "hour") "minute") "second" := rfl
  rw [htm, migStep_lookup_other o _ "second" k h3,
      migStep_lookup_other o _ "minute" k h2,
      migStep_lookup_other o _ "hour" k h1]

theorem themeMigrate_hour_missing (o : Dict JVal) (props : Dict PVal)
    (h : dlookup o "hour_hand_image_width" = none) :
    dlookup (themeMigrate o props) "hour_hand_image_width" =
      some (PVal.num 1) := by
  have htm : themeMigrate o props =
      migStep o (migStep o (migStep o props "hour") "minute") "second" := rfl
  rw [htm, migStep_lookup_other o _ "second" _ (by decide),
      migStep_lookup_other o _ "minute" _ (by decide)]
  exact migStep_missing o _ "hour" h

theorem themeMigrate_hour_present (o : Dict JVal) (props : Dict PVal)
    (h : (dlookup o "hour_hand_image_width").isSome) :
    dlookup (themeMigrate o props) "hour_hand_image_width" =
      dlookup props "hour_hand_image_width" := by
  have htm : themeMigrate o props =
      migStep o (migStep o (migStep o props "hour") "minute") "second" := rfl
  rw [htm, migStep_lookup_other o _ "second" _ (by decide),
      migStep_lookup_other o _ "minute" _ (by decide),
      migStep_present o _ "hour" h]

theorem themeMigrate_minute_missing (o : Dict JVal) (props : Dict PVal)
    (h : dlookup o "minute_hand_image_width" = none) :
    dlookup (themeMigrate o props) "minute_hand_image_width" =
      some (PVal.num 1) := by
  have htm : themeMigrate o props =
      migStep o (migStep o (migStep o props "hour") "minute") "second" := rfl
  rw [htm, migStep_lookup_other o _ "second" _ (by decide)]
  exact migStep_missing o _ "minute" h

theorem themeMigrate_minute_present (o : Dict JVal) (props : Dict PVal)
    (h : (dlookup o "minute_hand_image_width").isSome) :
    dlookup (themeMigrate o props) "minute_hand_image_width" =
      dlookup props "minute_hand_image_width" := by
  have htm : themeMigrate o props =
      migStep o (migStep o (migStep o props "hour") "minute") "second" := rfl
  rw [htm, migStep_lookup_other o _ "second" _ (by decide),
      migStep_present o _ "minute" h,
      migStep_lookup_other o _ "hour" _ (by decide)]

theorem themeMigrate_second_missing (o : Dict JVal) (props : Dict PVal)
    (h : dlookup o "second_hand_image_width" = none) :
    dlookup (themeMigrate o props) "second_hand_image_width" =
      some (PVal.num 1) := by
  have htm : themeMigrate o props =
      migStep o (migStep o (migStep o props "hour") "minute") "second" := rfl
  rw [htm]
  exact migStep_missing o _ "second" h

theorem themeMigrate_second_present (o : Dict JVal) (props : Dict PVal)
    (h : (dlookup o "second_hand_image_width").isSome) :
    dlookup (themeMigrate o props) "second_hand_image_width" =
      dlookup props "second_hand_image_width" := by
  have htm : themeMigrate o props =
      migStep o (migStep o (migStep o props "hour") "minute") "second" := rfl
  rw [htm, migStep_present o _ "second" h,
      migStep_lookup_other o _ "minute" _ (by decide),
      migStep_lookup_other o _ "hour" _ (by decide)]

theorem dlookup_overlay_some (D : Dict PVal) (o : Dict JVal) (k : String)
    (v : JVal) (hnd : (o.map Prod.fst).Nodup) (h : dlookup o k = some v) :
    dlookup (dictUpdate D (jsonObjToPy o)) k = some (jsonToPy v) := by
  apply dlookup_dictUpdate_of_some
  · have h2 : (o.map (fun kv => (kv.1, jsonToPy kv.2))).map Prod.fst =
        o.map Prod.fst := mapVal_keys jsonToPy o
    show ((o.map (fun kv => (kv.1, jsonToPy kv.2))).map Prod.fst).Nodup
    rw [h2]
    exact hnd
  · have h4 : dlookup (o.map (fun kv => (kv.1, jsonToPy kv.2))) k =
        (dlookup o k).map jsonToPy := dlookup_mapVal jsonToPy o k
    show dlookup (o.map (fun kv => (kv.1, jsonToPy kv.2))) k =
      some (jsonToPy v)
    rw [h4, h]
    rfl

/-- C6: loading a non-default theme file that contains a hand's
`<hand>_hand_width` but lacks `<hand>_hand_image_width` yields a store
where the width key holds the file's value verbatim and the image width
key holds `1.0`; when the file contains both keys, both loaded values
are kept — for each of the hour, minute and second hands. -/
theorem C6_image_width_migration :
    ∀ (t : ThemeBag) (fs : FS) p (o : Dict JVal),
      t.name ≠ "default" → t.bag.file_path = some p → fs p = .obj o →
      (o.map Prod.fst).Nodup →
      ((∀ vw, dlookup o "hour_hand_width" = some vw →
          dlookup o "hour_hand_image_width" = none →
          dlookup (ThemeBag.load t fs).1.bag.props "hour_hand_width" =
            some (jsonToPy vw) ∧
          dlookup (ThemeBag.load t fs).1.bag.props "hour_hand_image_width" =
            some (PVal.num 1)) ∧
       (∀ vw vi, dlookup o "hour_hand_width" = some vw →
          dlookup o "hour_hand_image_width" = some vi →
          dlookup (ThemeBag.load t fs).1.bag.props "hour_hand_width" =
            some (jsonToPy vw) ∧
          dlookup (ThemeBag.load t fs).1.bag.props "hour_hand_image_width" =
            some (jsonToPy vi))) ∧
      ((∀ vw, dlookup o "minute_hand_width" = some vw →
          dlookup o "minute_hand_image_width" = none →
          dlookup (ThemeBag.load t fs).1.bag.props "minute_hand_width" =
            some (jsonToPy vw) ∧
          dlookup (ThemeBag.load t fs).1.bag.props "minute_hand_image_width" =
            some (PVal.num 1)) ∧
       (∀ vw vi, dlookup o "minute_hand_width" = some vw →
          dlookup o "minute_hand_image_width" = some vi →
          dlookup (ThemeBag.load t fs).1.bag.props "minute_hand_width" =
            some (jsonToPy vw) ∧
          dlookup (ThemeBag.load t fs).1.bag.props "minute_hand_image_width" =
            some (jsonToPy vi))) ∧
      ((∀ vw, dlookup o "second_hand_width" = some vw →
          dlookup o "second_hand_image_width" = none →
          dlookup (ThemeBag.load t fs).1.bag.props "second_hand_width" =
            some (jsonToPy vw) ∧
          dlookup (ThemeBag.load t fs).1.bag.props "second_hand_image_width" =
            some (PVal.num 1)) ∧
       (∀ vw vi, dlookup o "second_hand_width" = some vw →
          dlookup o "second_hand_image_width" = some vi →
          dlookup (ThemeBag.load t fs).1.bag.props "second_hand_width" =
            some (jsonToPy vw) ∧
          dlookup (ThemeBag.load t fs).1.bag.props "second_hand_image_width" =
            some (jsonToPy vi))) := by
  intro t fs p o hname hp ho hnd
  have hload : (ThemeBag.load t fs).1.bag.props =
      themeMigrate o (dictUpdate themeDefaults (jsonObjToPy o)) := by
    simp [ThemeBag.load, hname, hp, ho]
  refine ⟨⟨?_, ?_⟩, ⟨?_, ?_⟩, ⟨?_, ?_⟩⟩
  · intro vw hvw hvi
    rw [hload]
    constructor
    · rw [themeMigrate_width_key o _ _ (by decide) (by decide) (by decide)]
      exact dlookup_overlay_some themeDefaults o _ vw hnd hvw
    · exact themeMigrate_hour_missing o _ hvi
  · intro vw vi hvw hvi
    rw [hload]
    constructor
    · rw [themeMigrate_width_key o _ _ (by decide) (by decide) (by decide)]
      exact dlookup_overlay_some themeDefaults o _ vw hnd hvw
    · rw [themeMigrate_hour_present o _ (by rw [hvi]; rfl)]
      exact dlookup_overlay_some themeDefaults o _ vi hnd hvi
  · intro vw hvw hvi
    rw [hload]
    constructor
    · rw [themeMigrate_width_key o _ _ (by decide) (by decide) (by decide)]
      exact dlookup_overlay_some themeDefaults o _ vw hnd hvw
    · exact themeMigrate_minute_missing o _ hvi
  · intro vw vi hvw hvi
    rw [hload]
    constructor
    · rw [themeMigrate_width_key o _ _ (by decide) (by decide) (by decide)]
      exact dlookup_overlay_some themeDefaults o _ vw hnd hvw
    · rw [themeMigrate_minute_present o _ (by rw [hvi]; rfl)]
      exact dlookup_overlay_some themeDefaults o _ vi hnd hvi
  · intro vw hvw hvi
    rw [hload]
    constructor
    · rw [themeMigrate_width_key o _ _ (by decide) (by decide) (by decide)]
      exact dlookup_overlay_some themeDefaults o _ vw hnd hvw
    · exact themeMigrate_second_missing o _ hvi
  · intro vw vi hvw hvi
    rw [hload]
    constructor
    · rw [themeMigrate_width_key o _ _ (by decide) (by decide) (by decide)]
      exact dlookup_overlay_some themeDefaults o _ vw hnd hvw
    · rw [themeMigrate_second_present o _ (by rw [hvi]; rfl)]
      exact dlookup_overlay_some themeDefaults o _ vi hnd hvi

/-- The stored profile of the C6 witness: an old-format file with only
`hour_hand_width` for the hour hand, and a new-format pair of keys for
the minute hand. -/
def oldFormatObj : Dict JVal :=
  [("hour_hand_width", .num (3/100)),
   ("minute_hand_width", .num (2/100)),
   ("minute_hand_image_width", .num (3/2))]

/-- A non-default theme pointing at the C6 witness's file. -/
def oldFormatTheme : ThemeBag :=
  { name := "classic",
    bag := { file_path := some "themes/classic.json",
             props := themeDefaults, dirty := false } }

/-- The filesystem of the C6 witness. -/
def oldFormatFs : FS :=
  fun q => if q = "themes/classic.json" then .obj oldFormatObj else .absent

/-- C6 witness: `C6_image_width_migration` applied to the concrete
old-format file — the hour hand keeps the file's width and gains image
width 1.0, the minute hand keeps both stored values. -/
theorem C6_image_width_migration_witness :
    (dlookup (ThemeBag.load oldFormatTheme oldFormatFs).1.bag.props
       "hour_hand_width" = some (jsonToPy (.num (3/100))) ∧
     dlookup (ThemeBag.load oldFormatTheme oldFormatFs).1.bag.props
       "hour_hand_image_width" = some (PVal.num 1)) ∧
    (dlookup (ThemeBag.load oldFormatTheme oldFormatFs).1.bag.props
       "minute_hand_width" = some (jsonToPy (.num (2/100))) ∧
     dlookup (ThemeBag.load oldFormatTheme oldFormatFs).1.bag.props
       "minute_hand_image_width" = some (jsonToPy (.num (3/2)))) :=
  ⟨(C6_image_width_migration oldFormatTheme oldFormatFs "themes/classic.json"
      oldFormatObj (by decide) rfl rfl (by decide)).1.1 (.num (3/100)) rfl rfl,
   (C6_image_width_migration oldFormatTheme oldFormatFs "themes/classic.json"
      oldFormatObj (by decide) rfl rfl (by decide)).2.1.2 (.num (2/100))
     (.num (3/2)) rfl rfl⟩
